import Mathlib

/-
Shallow embedding of the scheduling and delivery-reconciliation engine of
the Telegram-Channel-Repost-Bot repository (Go), covering:
  internal/models/models.go          (data model)
  internal/database/repository.go    (persistence gateway, SQL semantics)
  internal/scheduler (part_003)      (due-check, materializer, dispatch,
                                      reconciler, retry classifier)

Time is modelled as seconds since the Unix epoch (Int), with calendar
fields (UTC) derived by Euclidean division, matching the Go time package
calendar math on the instants the claims use. Storage is modelled as a
total in-memory database; storage-error branches of the Go code are
therefore never taken. The delivery gateway (MessageService) is an
oracle parameter giving the outcome of each send call; delete and pin
results are ignored by the Go code beyond logging, so only the calls
themselves are recorded in a trace.
-/

namespace RepostBot

/-- Seconds since the Unix epoch, UTC. -/
abbrev Time := Int

/-- Go time.After: strictly later. -/
def Time.after (a b : Time) : Bool := decide (b < a)

/-- Go time.Add of a duration of m minutes. -/
def Time.addMinutes (t : Time) (m : Int) : Time := t + m * 60

/-- Go time.Add of a duration of s seconds. -/
def Time.addSeconds (t : Time) (s : Int) : Time := t + s

/-- Calendar day index, modelling Format "2006-01-02" (UTC): two instants
format equal iff they lie in the same day. -/
def Time.dayKey (t : Time) : Int := t / 86400

/-- Go time.Hour (UTC). -/
def Time.hour (t : Time) : Int := (t % 86400) / 3600

/-- Go time.Minute (UTC). -/
def Time.minute (t : Time) : Int := (t % 3600) / 60

/-- models.ScheduleModeFrequency -/
def ScheduleModeFrequency : String := "frequency"

/-- models.ScheduleModeTimepoints -/
def ScheduleModeTimepoints : String := "timepoints"

/-- models.SendTypeRepost -/
def SendTypeRepost : String := "repost"

/-- models.SendTypePush -/
def SendTypePush : String := "push"

/-- models.SendStatusPending -/
def SendStatusPending : String := "pending"

/-- models.SendStatusSent -/
def SendStatusSent : String := "sent"

/-- models.SendStatusFailed -/
def SendStatusFailed : String := "failed"

/-- models.SendStatusRetry -/
def SendStatusRetry : String := "retry"

/-- models.TimePoint -/
structure TimePoint where
  hour : Int
  minute : Int
deriving DecidableEq, Repr

/-- models.ChannelGroup (fields the scheduler reads). -/
structure ChannelGroup where
  id : Int
  name : String
  messageID : Int
  frequency : Int
  scheduleMode : String
  scheduleTimepoints : List TimePoint
  isActive : Bool
  autoPin : Bool
deriving DecidableEq, Repr

/-- models.Channel -/
structure Channel where
  id : Int
  channelID : String
  channelName : String
  groupID : Int
  lastMessageID : String
  isActive : Bool
deriving DecidableEq, Repr

/-- models.MessageTemplate (content fields abstracted to their identity;
the scheduler passes them through to the delivery gateway unchanged). -/
structure MessageTemplate where
  id : Int
  title : String
  content : String
  entities : String
deriving DecidableEq, Repr

/-- models.SendRecord -/
structure SendRecord where
  id : Int
  groupID : Int
  channelID : String
  messageID : String
  messageType : String
  status : String
  errorMessage : Option String
  retryCount : Int
  scheduledAt : Time
  sentAt : Option Time
deriving DecidableEq, Repr

/-- config.SchedulerConfig -/
structure SchedulerConfig where
  checkInterval : Int
  maxWorkers : Int
  retryAttempts : Int
  retryInterval : Int
deriving DecidableEq, Repr

/-- The persistent store. Each list is in creation order (created_at
ascending, insertion order breaking ties), so ORDER BY created_at DESC is
list reversal. nextRecordID models the send_records AUTOINCREMENT key. -/
structure DB where
  groups : List ChannelGroup
  channels : List Channel
  templates : List MessageTemplate
  sendRecords : List SendRecord
  nextRecordID : Int
deriving DecidableEq, Repr

/-- The WHERE clause shared by the in-flight queries:
group_id = ? AND channel_id = ? AND status IN ('pending', 'retry'). -/
def inflightPred (groupID : Int) (channelID : String) (r : SendRecord) : Bool :=
  r.groupID == groupID && r.channelID == channelID &&
    (r.status == SendStatusPending || r.status == SendStatusRetry)

/-- Repository.GetChannelGroups: all groups, ORDER BY created_at DESC. -/
def getChannelGroups (db : DB) : List ChannelGroup :=
  db.groups.reverse

/-- Repository.GetChannelGroup: lookup by id, error if absent. -/
def getChannelGroup (db : DB) (id : Int) : Option ChannelGroup :=
  db.groups.find? (fun g => g.id == id)

/-- Repository.GetChannelsByGroupID: WHERE group_id = ? AND is_active = 1
ORDER BY created_at ASC. -/
def getChannelsByGroupID (db : DB) (groupID : Int) : List Channel :=
  db.channels.filter (fun c => c.groupID == groupID && c.isActive)

/-- Repository.GetMessageTemplate: lookup by id, error if absent. -/
def getMessageTemplate (db : DB) (id : Int) : Option MessageTemplate :=
  db.templates.find? (fun t => t.id == id)

/-- Repository.CreateSendRecord: INSERT, assigning the next id. -/
def createSendRecord (db : DB) (r : SendRecord) : DB :=
  { db with
    sendRecords := db.sendRecords ++ [{ r with id := db.nextRecordID }]
    nextRecordID := db.nextRecordID + 1 }

/-- Repository.UpdateSendRecord. The UPDATE statement sets message_id,
status, error_message, retry_count and sent_at of the row with the given
id; it does NOT set scheduled_at, so any scheduled_at change on the
in-memory record is dropped here, exactly as in the SQL. -/
def updateSendRecord (db : DB) (rec : SendRecord) : DB :=
  { db with
    sendRecords := db.sendRecords.map (fun r =>
      if r.id == rec.id then
        { r with
          messageID := rec.messageID
          status := rec.status
          errorMessage := rec.errorMessage
          retryCount := rec.retryCount
          sentAt := rec.sentAt }
      else r) }

/-- Repository.UpdateChannelLastMessageID:
UPDATE channels SET last_message_id = ? WHERE channel_id = ?. -/
def updateChannelLastMessageID (db : DB) (channelID messageID : String) : DB :=
  { db with
    channels := db.channels.map (fun c =>
      if c.channelID == channelID then { c with lastMessageID := messageID } else c) }

/-- Repository.GetPendingSendRecords:
WHERE status IN ('pending','retry') AND scheduled_at <= now
ORDER BY scheduled_at ASC. -/
def getPendingSendRecords (db : DB) (now : Time) : List SendRecord :=
  List.insertionSort (fun a b => a.scheduledAt ≤ b.scheduledAt)
    (db.sendRecords.filter (fun r =>
      (r.status == SendStatusPending || r.status == SendStatusRetry) &&
        decide (r.scheduledAt ≤ now)))

/-- Repository.GetPendingSendRecordsByGroupAndChannel:
WHERE group_id = ? AND channel_id = ? AND status IN ('pending','retry')
ORDER BY created_at DESC. -/
def getPendingSendRecordsByGroupAndChannel (db : DB) (groupID : Int)
    (channelID : String) : List SendRecord :=
  (db.sendRecords.filter (inflightPred groupID channelID)).reverse

/-- Repository.GetSendRecordsByGroupID:
WHERE group_id = ? ORDER BY created_at DESC LIMIT ?. -/
def getSendRecordsByGroupID (db : DB) (groupID : Int) (limit : Nat) :
    List SendRecord :=
  ((db.sendRecords.filter (fun r => r.groupID == groupID)).reverse).take limit

/-- Repository.CleanupDuplicatePendingRecords:
DELETE FROM send_records WHERE status = 'pending' AND message_type = 'repost'. -/
def cleanupDuplicatePendingRecords (db : DB) : DB :=
  { db with
    sendRecords := db.sendRecords.filter (fun r =>
      !(r.status == SendStatusPending && r.messageType == SendTypeRepost)) }

/-
Scheduler (internal/scheduler, src/unnamed/part_003). Each function below
embeds the Go method of the same name. Wall-clock time.Now() is passed in
as the parameter now; the delivery gateway is the oracle gw.
-/

/-- One call made to the delivery gateway (MessageService). Delete and pin
outcomes are ignored by the scheduler beyond logging, so only the calls
are recorded; send outcomes come from the Gateway oracle. -/
inductive GatewayCall
  /-- MessageService.DeleteMessage channelID messageID -/
  | deleteMsg (channelID messageID : String)
  /-- MessageService.SendMessage channelID templateID (plain template) -/
  | sendMessage (channelID : String) (templateID : Int)
  /-- MessageService.SendMessageWithTemplate channelID templateID
  (template with entities and buttons) -/
  | sendWithTpl (channelID : String) (templateID : Int)
  /-- MessageService.PinMessage channelID messageID -/
  | pin (channelID messageID : String)
deriving DecidableEq, Repr

/-- Delivery-gateway oracle: the outcome of each send call, either an
error text or the new remote message id. -/
structure Gateway where
  sendMessageResult : String → Int → Except String String
  sendWithTplResult : String → Int → Except String String

/-- Result of processing one record: the database afterwards, the trace of
delivery-gateway calls in order, and the error returned to processRecord
(none when the Go method returns nil). -/
structure ProcResult where
  db : DB
  trace : List GatewayCall
  err : Option String
deriving Repr

/-- Scheduler.shouldCreateFrequencyTask. Storage errors do not occur in
the total store model, so the fail-open branch is never taken. -/
def shouldCreateFrequencyTask (db : DB) (now : Time) (group : ChannelGroup) :
    Bool :=
  match getSendRecordsByGroupID db group.id 1 with
  | [] => true
  | lastRecord :: _ =>
    if lastRecord.messageType != SendTypeRepost ||
        lastRecord.status != SendStatusSent then
      true
    else
      match lastRecord.sentAt with
      | none => true
      | some sentAt =>
        Time.after now (Time.addMinutes sentAt group.frequency)

/-- Scheduler.hasAlreadySentToday: scans the 50 most recent records of the
group for a sent repost whose sent_at is on the given day, at the
timepoint hour, within one minute of the timepoint minute. -/
def hasAlreadySentToday (db : DB) (groupID : Int) (today : Int)
    (timepoint : TimePoint) : Bool :=
  (getSendRecordsByGroupID db groupID 50).any (fun record =>
    record.messageType == SendTypeRepost &&
    record.status == SendStatusSent &&
    match record.sentAt with
    | none => false
    | some sentAt =>
      Time.dayKey sentAt == today &&
      Time.hour sentAt == timepoint.hour &&
      decide ((Time.minute sentAt - timepoint.minute).natAbs ≤ 1))

/-- Scheduler.shouldCreateTimepointTask. -/
def shouldCreateTimepointTask (db : DB) (now : Time) (group : ChannelGroup) :
    Bool :=
  if group.scheduleTimepoints.isEmpty then
    false
  else
    group.scheduleTimepoints.any (fun timepoint =>
      timepoint.hour == Time.hour now &&
      timepoint.minute == Time.minute now &&
      !hasAlreadySentToday db group.id (Time.dayKey now) timepoint)

/-- Scheduler.shouldCreateRepostTask: dispatch on schedule mode, with
frequency semantics as the default for unknown modes. -/
def shouldCreateRepostTask (db : DB) (now : Time) (group : ChannelGroup) :
    Bool :=
  if group.scheduleMode == ScheduleModeFrequency then
    shouldCreateFrequencyTask db now group
  else if group.scheduleMode == ScheduleModeTimepoints then
    shouldCreateTimepointTask db now group
  else
    shouldCreateFrequencyTask db now group

/-- The fresh record built in Scheduler.createRepostTask: status pending,
message type repost, scheduled now (id is assigned on insert). -/
def newRepostRecord (groupID : Int) (channelID : String) (now : Time) :
    SendRecord :=
  { id := 0
    groupID := groupID
    channelID := channelID
    messageID := ""
    messageType := SendTypeRepost
    status := SendStatusPending
    errorMessage := none
    retryCount := 0
    scheduledAt := now
    sentAt := none }

/-- One iteration of the channel loop in Scheduler.createRepostTask: skip
inactive channels, skip when an in-flight (pending or retry) record for
the (group, channel) pair already exists, otherwise insert a new pending
repost record scheduled now. -/
def createRepostTaskChannel (db : DB) (now : Time) (groupID : Int)
    (channel : Channel) : DB :=
  if !channel.isActive then
    db
  else if (getPendingSendRecordsByGroupAndChannel db groupID
      channel.channelID).length > 0 then
    db
  else
    createSendRecord db (newRepostRecord groupID channel.channelID now)

/-- Scheduler.createRepostTask: the channel list is fetched once, then the
store is threaded through the per-channel loop. -/
def createRepostTask (db : DB) (now : Time) (group : ChannelGroup) : DB :=
  (getChannelsByGroupID db group.id).foldl
    (fun acc channel => createRepostTaskChannel acc now group.id channel) db

/-- Scheduler.createRepostTasks: one materializer tick over all groups,
skipping inactive groups and groups that are not due. -/
def createRepostTasks (db : DB) (now : Time) : DB :=
  (getChannelGroups db).foldl
    (fun acc group =>
      if !group.isActive then acc
      else if shouldCreateRepostTask acc now group then
        createRepostTask acc now group
      else acc) db

/-- Scheduler.processRepostRecord. -/
def processRepostRecord (gw : Gateway) (db : DB) (now : Time)
    (record : SendRecord) : ProcResult :=
  match getChannelGroup db record.groupID with
  | none => ⟨db, [], some ("channel group not found")⟩
  | some group =>
    if !group.isActive then
      ⟨updateSendRecord db
        { record with
          status := SendStatusFailed
          errorMessage := some ("Channel group is inactive") }, [], none⟩
    else
      match getMessageTemplate db group.messageID with
      | none => ⟨db, [], some ("message template not found")⟩
      | some template =>
        match (getChannelsByGroupID db record.groupID).find?
            (fun channel => channel.channelID == record.channelID) with
        | none =>
          ⟨updateSendRecord db
            { record with
              status := SendStatusFailed
              errorMessage := some ("Channel not found") }, [], none⟩
        | some targetChannel =>
          let deleteCalls : List GatewayCall :=
            if targetChannel.lastMessageID != "" then
              [GatewayCall.deleteMsg targetChannel.channelID
                targetChannel.lastMessageID]
            else []
          let sendCall := GatewayCall.sendWithTpl targetChannel.channelID
            template.id
          match gw.sendWithTplResult targetChannel.channelID template.id with
          | .error e => ⟨db, deleteCalls ++ [sendCall], some e⟩
          | .ok messageID =>
            let pinCalls : List GatewayCall :=
              if group.autoPin then
                [GatewayCall.pin targetChannel.channelID messageID]
              else []
            let db1 := updateChannelLastMessageID db
              targetChannel.channelID messageID
            ⟨updateSendRecord db1
              { record with
                messageID := messageID
                status := SendStatusSent
                sentAt := some now
                errorMessage := none },
              deleteCalls ++ [sendCall] ++ pinCalls, none⟩

/-- Scheduler.processPushRecord: loads the group and template, then sends
the plain template to the record channel id without deleting a previous
message; there is no channel lookup, no pin and no channel
last-message-id update in this path. -/
def processPushRecord (gw : Gateway) (db : DB) (now : Time)
    (record : SendRecord) : ProcResult :=
  match getChannelGroup db record.groupID with
  | none => ⟨db, [], some ("channel group not found")⟩
  | some group =>
    if !group.isActive then
      ⟨updateSendRecord db
        { record with
          status := SendStatusFailed
          errorMessage := some ("Channel group is inactive") }, [], none⟩
    else
      match getMessageTemplate db group.messageID with
      | none => ⟨db, [], some ("message template not found")⟩
      | some template =>
        let sendCall := GatewayCall.sendMessage record.channelID template.id
        match gw.sendMessageResult record.channelID template.id with
        | .error e => ⟨db, [sendCall], some e⟩
        | .ok messageID =>
          ⟨updateSendRecord db
            { record with
              messageID := messageID
              status := SendStatusSent
              sentAt := some now
              errorMessage := none }, [sendCall], none⟩

/-- Scheduler.handleSendError: increment retry_count, store the error
text, then either mark for retry with a later scheduled_at or mark failed
once the retry budget is exhausted. The scheduled_at change is dropped by
updateSendRecord, whose UPDATE statement does not cover scheduled_at. -/
def handleSendError (cfg : SchedulerConfig) (db : DB) (now : Time)
    (record : SendRecord) (errText : String) : DB :=
  let record1 :=
    { record with
      retryCount := record.retryCount + 1
      errorMessage := some errText }
  let record2 :=
    if record1.retryCount < cfg.retryAttempts then
      { record1 with
        status := SendStatusRetry
        scheduledAt := Time.addSeconds now cfg.retryInterval }
    else
      { record1 with status := SendStatusFailed }
  updateSendRecord db record2

/-- Scheduler.processRecord: dispatch on the record message type; unknown
types log and return with no effect; errors route to handleSendError with
the original record value. Returns the database and the gateway trace. -/
def processRecord (gw : Gateway) (cfg : SchedulerConfig) (db : DB)
    (now : Time) (record : SendRecord) : DB × List GatewayCall :=
  if record.messageType == SendTypeRepost then
    let r := processRepostRecord gw db now record
    match r.err with
    | some e => (handleSendError cfg r.db now record e, r.trace)
    | none => (r.db, r.trace)
  else if record.messageType == SendTypePush then
    let r := processPushRecord gw db now record
    match r.err with
    | some e => (handleSendError cfg r.db now record e, r.trace)
    | none => (r.db, r.trace)
  else
    (db, [])

/-- One dispatch-loop tick restricted to its first due record (worker
concurrency aside): fetch the due records and process the oldest, if any.
Used to drive the retry state machine claims. -/
def dispatchFirstDue (gw : Gateway) (cfg : SchedulerConfig) (db : DB)
    (now : Time) : DB :=
  match getPendingSendRecords db now with
  | [] => db
  | record :: _ => (processRecord gw cfg db now record).1

/-
Invariant vocabulary and helper lemmas.
-/

/-- Records in flight (status pending or retry) for a (group, channel)
pair. -/
def inflightFor (db : DB) (groupID : Int) (channelID : String) :
    List SendRecord :=
  db.sendRecords.filter (inflightPred groupID channelID)

/-- At most one in-flight record per (group, channel) pair. -/
def atMostOneInflight (db : DB) : Prop :=
  ∀ groupID channelID, (inflightFor db groupID channelID).length ≤ 1

lemma length_getPendingByGroupAndChannel (db : DB) (groupID : Int)
    (channelID : String) :
    (getPendingSendRecordsByGroupAndChannel db groupID channelID).length =
      (inflightFor db groupID channelID).length := by
  simp [getPendingSendRecordsByGroupAndChannel, inflightFor]

lemma inflightFor_createSendRecord (db : DB) (r : SendRecord)
    (groupID : Int) (channelID : String) :
    inflightFor (createSendRecord db r) groupID channelID =
      inflightFor db groupID channelID ++
        (if inflightPred groupID channelID { r with id := db.nextRecordID }
          then [{ r with id := db.nextRecordID }] else []) := by
  simp only [inflightFor, createSendRecord, List.filter_append,
    List.filter_cons, List.filter_nil]

lemma preservedByFoldl {α β : Type} (P : β → Prop) (f : β → α → β)
    (hf : ∀ b a, P b → P (f b a)) :
    ∀ (l : List α) (b : β), P b → P (l.foldl f b)
  | [], _, hb => hb
  | a :: l, b, hb => preservedByFoldl P f hf l (f b a) (hf b a hb)

lemma createRepostTaskChannel_preserves (now : Time) (groupID : Int)
    (channel : Channel) (db : DB) (h : atMostOneInflight db) :
    atMostOneInflight (createRepostTaskChannel db now groupID channel) := by
  unfold createRepostTaskChannel
  split
  · exact h
  · split
    · exact h
    · rename_i hinactive hlen
      intro g c
      rw [inflightFor_createSendRecord]
      split
      · rename_i hpred
        simp only [inflightPred, newRepostRecord, Bool.and_eq_true,
          beq_iff_eq] at hpred
        obtain ⟨⟨hgid, hcid⟩, _⟩ := hpred
        have hzero : (inflightFor db groupID channel.channelID).length = 0 := by
          have h0 := length_getPendingByGroupAndChannel db groupID
            channel.channelID
          omega
        simp only [List.length_append, List.length_singleton]
        rw [hgid, hcid] at hzero
        omega
      · simp only [List.append_nil]
        exact h g c

lemma createRepostTask_preserves (now : Time) (group : ChannelGroup)
    (db : DB) (h : atMostOneInflight db) :
    atMostOneInflight (createRepostTask db now group) := by
  unfold createRepostTask
  exact preservedByFoldl atMostOneInflight _
    (fun b a hb => createRepostTaskChannel_preserves now group.id a b hb)
    _ db h

lemma createRepostTasks_preserves (now : Time) (db : DB)
    (h : atMostOneInflight db) :
    atMostOneInflight (createRepostTasks db now) := by
  unfold createRepostTasks
  refine preservedByFoldl atMostOneInflight _ ?_ _ db h
  intro b a hb
  split
  · exact hb
  · split
    · exact createRepostTask_preserves now a b hb
    · exact hb

/-- C1: starting from a store with at most one in-flight record per
(group, channel) pair, any number of materializer ticks preserves that
invariant; moreover the per-channel materializer step is a no-op whenever
an in-flight record already exists for the pair. -/
theorem materializer_at_most_one_inflight (db : DB) (ticks : List Time)
    (h : atMostOneInflight db) :
    atMostOneInflight
        (ticks.foldl (fun acc now => createRepostTasks acc now) db) ∧
      ∀ now groupID channel,
        inflightFor db groupID channel.channelID ≠ [] →
          createRepostTaskChannel db now groupID channel = db := by
  constructor
  · exact preservedByFoldl atMostOneInflight _
      (fun b a hb => createRepostTasks_preserves a b hb) ticks db h
  · intro now groupID channel hne
    unfold createRepostTaskChannel
    split
    · rfl
    · split
      · rfl
      · rename_i hlen
        exfalso
        apply hlen
        rw [length_getPendingByGroupAndChannel]
        cases hfe : inflightFor db groupID channel.channelID with
        | nil => exact absurd hfe hne
        | cons a l => simp

/-- Concrete store for the C1 witness: one group, one channel, one
in-flight pending record for the pair. -/
def c1db : DB :=
  { groups := [{ id := 1
                 name := "g"
                 messageID := 7
                 frequency := 60
                 scheduleMode := ScheduleModeFrequency
                 scheduleTimepoints := []
                 isActive := true
                 autoPin := false }]
    channels := [{ id := 1
                   channelID := "@c1"
                   channelName := "c1"
                   groupID := 1
                   lastMessageID := ""
                   isActive := true }]
    templates := [{ id := 7
                    title := "t"
                    content := "hello"
                    entities := "" }]
    sendRecords := [newRepostRecord 1 "@c1" 0]
    nextRecordID := 2 }

/-- C1 witness: two materializer ticks on a store that already holds one
in-flight record keep the at-most-one-in-flight invariant. -/
theorem materializer_at_most_one_inflight_witness :
    atMostOneInflight
      (([0, 3600] : List Time).foldl
        (fun acc now => createRepostTasks acc now) c1db) :=
  (materializer_at_most_one_inflight c1db [0, 3600]
    (fun _ _ => le_trans (List.length_filter_le _ _) (by simp [c1db]))).1

/-
C3 and C4: the frequency-mode due predicate.
-/

/-- C3 (amended): with the most recent record of the group a sent repost
with sent_at = T, the frequency due predicate is true exactly when now is
strictly later than T plus the frequency in minutes; in particular it is
false at every instant in the half-open window from T up to and including
the boundary instant T+F, and true at every instant strictly after T+F.
The original claim asserted true at the boundary instant itself; the code
uses a strict time.After comparison, so the boundary is not due. -/
theorem frequency_due_iff_strictly_after_boundary (db : DB)
    (g : ChannelGroup) (rec : SendRecord) (T : Time)
    (h1 : getSendRecordsByGroupID db g.id 1 = [rec])
    (h2 : rec.messageType = SendTypeRepost)
    (h3 : rec.status = SendStatusSent)
    (h4 : rec.sentAt = some T) :
    ∀ now : Time,
      shouldCreateFrequencyTask db now g =
        decide (T + g.frequency * 60 < now) := by
  intro now
  unfold shouldCreateFrequencyTask
  rw [h1]
  simp [h2, h3, h4, Time.after, Time.addMinutes]

/-- Group for the C3 counterexample: frequency mode, 60 minutes. -/
def c3group : ChannelGroup :=
  { id := 1
    name := "g"
    messageID := 7
    frequency := 60
    scheduleMode := ScheduleModeFrequency
    scheduleTimepoints := []
    isActive := true
    autoPin := false }

/-- The single sent repost record of the C3 store, sent at T = 0. -/
def c3rec : SendRecord :=
  { id := 1
    groupID := 1
    channelID := "@c1"
    messageID := "55"
    messageType := SendTypeRepost
    status := SendStatusSent
    errorMessage := none
    retryCount := 0
    scheduledAt := 0
    sentAt := some 0 }

/-- Store for the C3 counterexample and witness: a single sent repost with
sent_at = 0 for group 1 (frequency 60 minutes). -/
def c3db : DB :=
  { groups := [c3group]
    channels := []
    templates := []
    sendRecords := [c3rec]
    nextRecordID := 2 }

/-- C3 counterexample: with the last sent repost at T = 0 and frequency
F = 60 minutes, the due predicate is still false at the boundary instant
T + F (= 3600 s), where the claim asserts it is true. -/
theorem frequency_due_boundary_counterexample :
    shouldCreateFrequencyTask c3db 3600 c3group = false := by decide

/-- C3 witness: one second after the boundary the predicate is true, and
at 59 minutes it is false, by the amended characterization. -/
theorem frequency_due_iff_strictly_after_boundary_witness :
    shouldCreateFrequencyTask c3db 3601 c3group = true ∧
      shouldCreateFrequencyTask c3db 3540 c3group = false := by
  have h := frequency_due_iff_strictly_after_boundary c3db c3group
    c3rec 0 (by decide) (by decide) (by decide) (by decide)
  constructor
  · rw [h 3601]; decide
  · rw [h 3540]; decide

/-- Due predicate as claim C4 words it, for comparison with the code: the
decision is determined by the most recent record of kind repost with
status sent, regardless of any newer records of other kinds or statuses;
due iff no such record exists or its sent_at plus the frequency in
minutes has elapsed relative to now. -/
def frequencyDueClaimed (db : DB) (now : Time) (g : ChannelGroup) : Bool :=
  match (db.sendRecords.filter (fun r =>
      r.groupID == g.id && r.messageType == SendTypeRepost &&
        r.status == SendStatusSent)).getLast? with
  | none => true
  | some rec =>
    match rec.sentAt with
    | none => true
    | some t => Time.after now (Time.addMinutes t g.frequency)

/-- C4 (amended): the frequency due predicate is determined by the single
most recent record of the group of ANY kind and status, not by the most
recent sent repost: it is true iff the group has no records at all, or
its most recent record is not a sent repost, or that record has no
sent_at, or its sent_at plus the frequency in minutes is strictly before
now. -/
theorem frequency_due_determined_by_last_record_of_any_kind (db : DB)
    (now : Time) (g : ChannelGroup) :
    shouldCreateFrequencyTask db now g = true ↔
      ∀ rec,
        (db.sendRecords.filter (fun r => r.groupID == g.id)).getLast? =
            some rec →
          rec.messageType ≠ SendTypeRepost ∨ rec.status ≠ SendStatusSent ∨
            rec.sentAt = none ∨
            ∃ t, rec.sentAt = some t ∧ t + g.frequency * 60 < now := by
  unfold shouldCreateFrequencyTask getSendRecordsByGroupID
  rw [← List.head?_reverse]
  cases hrev : (db.sendRecords.filter (fun r => r.groupID == g.id)).reverse with
  | nil =>
    simp
  | cons a l =>
    simp only [List.take_succ_cons, List.take_zero, List.head?_cons]
    constructor
    · intro hcode rec hrec
      have ha : rec = a := by
        injection hrec with he
        exact he.symm
      subst ha
      by_cases hmt : rec.messageType = SendTypeRepost
      · by_cases hst : rec.status = SendStatusSent
        · cases hsa : rec.sentAt with
          | none => exact Or.inr (Or.inr (Or.inl rfl))
          | some t =>
            refine Or.inr (Or.inr (Or.inr ⟨t, rfl, ?_⟩))
            simp [hmt, hst, hsa, Time.after, Time.addMinutes] at hcode
            exact hcode
        · exact Or.inr (Or.inl hst)
      · exact Or.inl hmt
    · intro hr
      by_cases hmt : a.messageType = SendTypeRepost
      · by_cases hst : a.status = SendStatusSent
        · rcases hr a rfl with h | h | h | ⟨t, hsa, ht⟩
          · exact absurd hmt h
          · exact absurd hst h
          · simp [hmt, hst, h]
          · simp [hmt, hst, hsa, Time.after, Time.addMinutes]
            exact ht
        · simp [hmt, hst, bne_iff_ne]
      · simp [hmt, bne_iff_ne]

/-- Group for the C4 counterexample: frequency mode, 60 minutes. -/
def c4group : ChannelGroup :=
  { id := 1
    name := "g"
    messageID := 7
    frequency := 60
    scheduleMode := ScheduleModeFrequency
    scheduleTimepoints := []
    isActive := true
    autoPin := false }

/-- C4 counterexample data: a repost sent at time 0 ... -/
def c4sent : SendRecord :=
  { id := 1
    groupID := 1
    channelID := "@c1"
    messageID := "55"
    messageType := SendTypeRepost
    status := SendStatusSent
    errorMessage := none
    retryCount := 0
    scheduledAt := 0
    sentAt := some 0 }

/-- ... followed by a newer failed push record. -/
def c4push : SendRecord :=
  { id := 2
    groupID := 1
    channelID := "@c1"
    messageID := ""
    messageType := SendTypePush
    status := SendStatusFailed
    errorMessage := some ("boom")
    retryCount := 3
    scheduledAt := 10
    sentAt := none }

/-- Store for the C4 counterexample: the most recent record of the group
is a failed push, while a repost was successfully sent one minute ago. -/
def c4db : DB :=
  { groups := [c4group]
    channels := []
    templates := []
    sendRecords := [c4sent, c4push]
    nextRecordID := 3 }

/-- C4 counterexample: one minute after a successful repost (frequency 60
minutes), a newer failed push record makes the code report the group as
due, while the due predicate claimed in C4 (determined by the most recent
SENT REPOST record regardless of newer records of other kinds) is false. -/
theorem frequency_due_ignores_newer_records_counterexample :
    shouldCreateFrequencyTask c4db 60 c4group = true ∧
      frequencyDueClaimed c4db 60 c4group = false := by
  constructor
  · decide
  · decide

/-- C4 witness: the amended characterization applied to the concrete
store, whose most recent record is the failed push, yields due = true. -/
theorem frequency_due_determined_by_last_record_witness :
    shouldCreateFrequencyTask c4db 60 c4group = true :=
  (frequency_due_determined_by_last_record_of_any_kind c4db 60 c4group).mpr
    (fun rec h => by
      have hl : (c4db.sendRecords.filter
          (fun r => r.groupID == c4group.id)).getLast? = some c4push := by
        decide
      rw [hl] at h
      have he : c4push = rec := by injection h
      subst he
      exact Or.inl (by decide))

/-
C5: the timepoints-mode due predicate and the sent-today de-duplication.
-/

/-- C5: for a group in timepoints mode with the single timepoint 08:00
whose only history record is a repost successfully sent at 08:00:30 on
day D, the due predicate is false at every check on day D whose current
time lies in 08:00 through 08:09, and true again at 08:00 on day D+1. -/
theorem timepoint_no_double_fire (db : DB) (g : ChannelGroup)
    (rec : SendRecord) (D : Int)
    (htp : g.scheduleTimepoints = [{ hour := 8, minute := 0 }])
    (hrecs : db.sendRecords.filter (fun r => r.groupID == g.id) = [rec])
    (hk : rec.messageType = SendTypeRepost)
    (hs : rec.status = SendStatusSent)
    (hsent : rec.sentAt = some (D * 86400 + 28830)) :
    (∀ t : Time, Time.dayKey t = D → Time.hour t = 8 →
        Time.minute t ≤ 9 → shouldCreateTimepointTask db t g = false) ∧
      (∀ t : Time, Time.dayKey t = D + 1 → Time.hour t = 8 →
        Time.minute t = 0 → shouldCreateTimepointTask db t g = true) := by
  have hlist : getSendRecordsByGroupID db g.id 50 = [rec] := by
    unfold getSendRecordsByGroupID
    rw [hrecs]
    rfl
  have hday : Time.dayKey (D * 86400 + 28830) = D := by
    unfold Time.dayKey
    omega
  have hhour : Time.hour (D * 86400 + 28830) = 8 := by
    unfold Time.hour
    omega
  have hmin : Time.minute (D * 86400 + 28830) = 0 := by
    unfold Time.minute
    omega
  constructor
  · intro t htD htH htM
    unfold shouldCreateTimepointTask
    rw [htp]
    by_cases hm0 : Time.minute t = 0
    · have hsentToday : hasAlreadySentToday db g.id (Time.dayKey t)
          { hour := 8, minute := 0 } = true := by
        unfold hasAlreadySentToday
        rw [hlist]
        simp [hk, hs, hsent, hday, hhour, hmin, htD]
      simp [hsentToday, htH, hm0]
    · simp [htH]
      intro h0
      exact absurd h0.symm hm0
  · intro t htD htH htM
    unfold shouldCreateTimepointTask
    rw [htp]
    have hsentToday : hasAlreadySentToday db g.id (Time.dayKey t)
        { hour := 8, minute := 0 } = false := by
      unfold hasAlreadySentToday
      rw [hlist]
      simp [hk, hs, hsent, hday, htD]
    simp [hsentToday, htH, htM]

/-- Group for the C5 witness: timepoints mode with the single timepoint
08:00. -/
def c5group : ChannelGroup :=
  { id := 1
    name := "g"
    messageID := 7
    frequency := 60
    scheduleMode := ScheduleModeTimepoints
    scheduleTimepoints := [{ hour := 8, minute := 0 }]
    isActive := true
    autoPin := false }

/-- The single history record of the C5 witness store: a repost sent at
08:00:30 on day 0 (sent_at = 28830 s). -/
def c5rec : SendRecord :=
  { id := 1
    groupID := 1
    channelID := "@c1"
    messageID := "55"
    messageType := SendTypeRepost
    status := SendStatusSent
    errorMessage := none
    retryCount := 0
    scheduledAt := 28800
    sentAt := some 28830 }

/-- Store for the C5 witness. -/
def c5db : DB :=
  { groups := [c5group]
    channels := []
    templates := []
    sendRecords := [c5rec]
    nextRecordID := 2 }

/-- C5 witness: on day 0 the predicate is false at 08:00:40 and at 08:09,
and true again at 08:00 on day 1. -/
theorem timepoint_no_double_fire_witness :
    shouldCreateTimepointTask c5db 28840 c5group = false ∧
      shouldCreateTimepointTask c5db 29340 c5group = false ∧
      shouldCreateTimepointTask c5db 115200 c5group = true := by
  have h := timepoint_no_double_fire c5db c5group c5rec 0 (by decide)
    (by decide) (by decide) (by decide) (by decide)
  refine ⟨h.1 28840 (by decide) (by decide) (by decide),
    h.1 29340 (by decide) (by decide) (by decide),
    h.2 115200 (by decide) (by decide) (by decide)⟩

/-
C6 and C7: the repost reconciler.
-/

/-- Delivery gateway whose sends always succeed with message id 100. -/
def gwOk : Gateway :=
  { sendMessageResult := fun _ _ => Except.ok ("100")
    sendWithTplResult := fun _ _ => Except.ok ("100") }

/-- Delivery gateway whose sends always fail. -/
def gwFail : Gateway :=
  { sendMessageResult := fun _ _ => Except.error ("network error")
    sendWithTplResult := fun _ _ => Except.error ("network error") }

/-- Scheduler configuration with 3 retry attempts and a 300 s retry
interval. -/
def cfg3 : SchedulerConfig :=
  { checkInterval := 60
    maxWorkers := 5
    retryAttempts := 3
    retryInterval := 300 }

/-- C7: a repost record whose group is inactive at dispatch time is
marked failed with the error text recorded, with no delivery-gateway call
of any kind, and with retry_count unchanged (the persisted row keeps the
retry count of the dispatched record and the retry classifier is never
invoked). -/
theorem inactive_group_short_circuit (gw : Gateway) (cfg : SchedulerConfig)
    (db : DB) (now : Time) (record : SendRecord) (g : ChannelGroup)
    (hk : record.messageType = SendTypeRepost)
    (hg : getChannelGroup db record.groupID = some g)
    (hact : g.isActive = false) :
    processRecord gw cfg db now record =
      (updateSendRecord db
        { record with
          status := SendStatusFailed
          errorMessage := some ("Channel group is inactive") }, []) := by
  unfold processRecord processRepostRecord
  rw [hg]
  simp [hk, hact]

/-- Group for the C7 witness: inactive. -/
def c7group : ChannelGroup :=
  { id := 1
    name := "g"
    messageID := 7
    frequency := 60
    scheduleMode := ScheduleModeFrequency
    scheduleTimepoints := []
    isActive := false
    autoPin := false }

/-- Pending repost record for the C7 witness, with retry count 2. -/
def c7rec : SendRecord :=
  { id := 1
    groupID := 1
    channelID := "@c1"
    messageID := ""
    messageType := SendTypeRepost
    status := SendStatusPending
    errorMessage := none
    retryCount := 2
    scheduledAt := 0
    sentAt := none }

/-- Store for the C7 witness. -/
def c7db : DB :=
  { groups := [c7group]
    channels := []
    templates := []
    sendRecords := [c7rec]
    nextRecordID := 2 }

/-- C7 witness: dispatching the pending record of the inactive group
marks it failed with the error text, keeps retry count 2 and makes no
gateway call. -/
theorem inactive_group_short_circuit_witness :
    processRecord gwOk cfg3 c7db 5 c7rec =
      (updateSendRecord c7db
        { c7rec with
          status := SendStatusFailed
          errorMessage := some ("Channel group is inactive") }, []) :=
  inactive_group_short_circuit gwOk cfg3 c7db 5 c7rec c7group rfl
    (by decide) rfl

/-- C6: for a repost record whose target channel has a non-empty
last-delivered-message id, the reconciler trace starts with the delete of
exactly that stored id immediately followed by the send; when the send
fails the channel table is unchanged, and when the send succeeds every
channel row with the target channel id carries the newly returned message
id. -/
theorem repost_delete_before_send_update_after (gw : Gateway) (db : DB)
    (now : Time) (record : SendRecord) (g : ChannelGroup)
    (tpl : MessageTemplate) (tc : Channel)
    (hg : getChannelGroup db record.groupID = some g)
    (hact : g.isActive = true)
    (htpl : getMessageTemplate db g.messageID = some tpl)
    (htc : (getChannelsByGroupID db record.groupID).find?
        (fun c => c.channelID == record.channelID) = some tc)
    (hlast : tc.lastMessageID ≠ "") :
    (∃ rest, (processRepostRecord gw db now record).trace =
        GatewayCall.deleteMsg tc.channelID tc.lastMessageID ::
          GatewayCall.sendWithTpl tc.channelID tpl.id :: rest) ∧
      (∀ e, gw.sendWithTplResult tc.channelID tpl.id = Except.error e →
        (processRepostRecord gw db now record).db.channels = db.channels) ∧
      (∀ mid, gw.sendWithTplResult tc.channelID tpl.id = Except.ok mid →
        ∀ c ∈ (processRepostRecord gw db now record).db.channels,
          c.channelID = tc.channelID → c.lastMessageID = mid) := by
  unfold processRepostRecord
  rw [hg]
  dsimp only
  rw [hact]
  rw [if_neg (by simp)]
  rw [htpl]
  dsimp only
  rw [htc]
  dsimp only
  have hbne : (tc.lastMessageID != "") = true := bne_iff_ne.mpr hlast
  rw [if_pos hbne]
  cases hsend : gw.sendWithTplResult tc.channelID tpl.id with
  | error e =>
    dsimp only
    refine ⟨⟨[], rfl⟩, fun e' _ => rfl, fun mid hmid => ?_⟩
    exact absurd hmid (by simp)
  | ok mid =>
    dsimp only
    refine ⟨⟨if g.autoPin then [GatewayCall.pin tc.channelID mid] else [],
      rfl⟩, fun e' he' => ?_, fun mid' hmid' c hc hcid => ?_⟩
    · exact absurd he' (by simp)
    · have hmm : mid = mid' := by
        injection hmid'
      subst hmm
      simp only [updateSendRecord, updateChannelLastMessageID,
        List.mem_map] at hc
      obtain ⟨c0, hc0, hfc⟩ := hc
      by_cases hmatch : c0.channelID == tc.channelID
      · rw [if_pos hmatch] at hfc
        rw [← hfc]
      · rw [if_neg hmatch] at hfc
        subst hfc
        exact absurd (beq_iff_eq.mpr hcid) hmatch

/-- Group for the C6 witness: active, with auto-pin enabled. -/
def c6group : ChannelGroup :=
  { id := 1
    name := "g"
    messageID := 7
    frequency := 60
    scheduleMode := ScheduleModeFrequency
    scheduleTimepoints := []
    isActive := true
    autoPin := true }

/-- Template for the C6 witness. -/
def c6tpl : MessageTemplate :=
  { id := 7
    title := "t"
    content := "hello"
    entities := "" }

/-- Channel for the C6 witness, holding previous message id 55. -/
def c6chan : Channel :=
  { id := 1
    channelID := "@c1"
    channelName := "c1"
    groupID := 1
    lastMessageID := "55"
    isActive := true }

/-- Pending repost record for the C6 witness. -/
def c6rec : SendRecord :=
  { id := 1
    groupID := 1
    channelID := "@c1"
    messageID := ""
    messageType := SendTypeRepost
    status := SendStatusPending
    errorMessage := none
    retryCount := 0
    scheduledAt := 0
    sentAt := none }

/-- Store for the C6 witness. -/
def c6db : DB :=
  { groups := [c6group]
    channels := [c6chan]
    templates := [c6tpl]
    sendRecords := [c6rec]
    nextRecordID := 2 }

/-- C6 witness: on the concrete store the trace starts with the delete of
stored id 55 followed by the send, and after the successful send every
row of the target channel carries the new id 100. -/
theorem repost_delete_before_send_update_after_witness :
    (∃ rest, (processRepostRecord gwOk c6db 50 c6rec).trace =
        GatewayCall.deleteMsg "@c1" "55" ::
          GatewayCall.sendWithTpl "@c1" 7 :: rest) ∧
      ∀ c ∈ (processRepostRecord gwOk c6db 50 c6rec).db.channels,
        c.channelID = "@c1" → c.lastMessageID = "100" := by
  have h := repost_delete_before_send_update_after gwOk c6db 50 c6rec
    c6group c6tpl c6chan (by decide) rfl (by decide) (by decide) (by decide)
  exact ⟨h.1, fun c hc hcid => h.2.2 ("100") rfl c hc hcid⟩

/-
C8: push processing versus repost processing.
-/

/-- Traces with the delete calls removed, for the comparison claimed in
C8: push is said to behave exactly like repost minus the delete step. -/
def stripDeletes (trace : List GatewayCall) : List GatewayCall :=
  trace.filter (fun c =>
    match c with
    | GatewayCall.deleteMsg _ _ => false
    | _ => true)

/-- Group for the C8 counterexample: active, auto-pin enabled. -/
def c8group : ChannelGroup :=
  { id := 1
    name := "g"
    messageID := 7
    frequency := 60
    scheduleMode := ScheduleModeFrequency
    scheduleTimepoints := []
    isActive := true
    autoPin := true }

/-- Template for the C8 counterexample. -/
def c8tpl : MessageTemplate :=
  { id := 7
    title := "t"
    content := "hello"
    entities := "" }

/-- Channel for the C8 counterexample, holding previous message id 55. -/
def c8chan : Channel :=
  { id := 1
    channelID := "@c1"
    channelName := "c1"
    groupID := 1
    lastMessageID := "55"
    isActive := true }

/-- Pending push record for the C8 counterexample. -/
def c8rec : SendRecord :=
  { id := 1
    groupID := 1
    channelID := "@c1"
    messageID := ""
    messageType := SendTypePush
    status := SendStatusPending
    errorMessage := none
    retryCount := 0
    scheduledAt := 0
    sentAt := none }

/-- Store for the C8 counterexample. -/
def c8db : DB :=
  { groups := [c8group]
    channels := [c8chan]
    templates := [c8tpl]
    sendRecords := [c8rec]
    nextRecordID := 2 }

/-- C8 counterexample: on a store with auto-pin enabled and a stored
last-message id, processing the record as push differs from processing it
as repost by more than the missing delete: the repost path pins the new
message and rewrites the channel last-message id, the push path does
neither, so the push outcome is not the repost outcome minus deletes. -/
theorem push_equals_repost_minus_delete_counterexample :
    (processPushRecord gwOk c8db 50 c8rec).db.channels ≠
        (processRepostRecord gwOk c8db 50 c8rec).db.channels ∧
      (processPushRecord gwOk c8db 50 c8rec).trace ≠
        stripDeletes (processRepostRecord gwOk c8db 50 c8rec).trace ∧
      GatewayCall.pin ("@c1") ("100") ∈
        (processRepostRecord gwOk c8db 50 c8rec).trace ∧
      GatewayCall.pin ("@c1") ("100") ∉
        (processPushRecord gwOk c8db 50 c8rec).trace := by
  refine ⟨by decide, by decide, by decide, by decide⟩

/-- C8 (amended): processing a push record shares with repost only the
inactive-group short circuit, the template load, the send and the
sent-outcome persistence; it never calls delete, but unlike repost it
also never calls pin, never touches the channel table (no last-message-id
update), and performs no channel lookup, so a missing channel is not
detected. -/
theorem push_processing_characterization (gw : Gateway) (db : DB)
    (now : Time) (record : SendRecord) :
    (∀ c ∈ (processPushRecord gw db now record).trace,
        (∀ ch m, c ≠ GatewayCall.deleteMsg ch m) ∧
          (∀ ch m, c ≠ GatewayCall.pin ch m)) ∧
      (processPushRecord gw db now record).db.channels = db.channels ∧
      (∀ g, getChannelGroup db record.groupID = some g →
        g.isActive = false →
        processPushRecord gw db now record =
          processRepostRecord gw db now record) ∧
      (∀ g tpl mid, getChannelGroup db record.groupID = some g →
        g.isActive = true →
        getMessageTemplate db g.messageID = some tpl →
        gw.sendMessageResult record.channelID tpl.id = Except.ok mid →
        processPushRecord gw db now record =
          ⟨updateSendRecord db
            { record with
              messageID := mid
              status := SendStatusSent
              sentAt := some now
              errorMessage := none },
            [GatewayCall.sendMessage record.channelID tpl.id], none⟩) := by
  refine ⟨?_, ?_, ?_, ?_⟩
  · intro c hc
    unfold processPushRecord at hc
    constructor
    · intro ch m
      cases hg : getChannelGroup db record.groupID with
      | none => rw [hg] at hc; simp at hc
      | some g =>
        rw [hg] at hc
        dsimp only at hc
        by_cases hact : g.isActive
        · rw [hact] at hc
          rw [if_neg (by simp)] at hc
          cases htpl : getMessageTemplate db g.messageID with
          | none => rw [htpl] at hc; simp at hc
          | some tpl =>
            rw [htpl] at hc
            dsimp only at hc
            cases hsend : gw.sendMessageResult record.channelID tpl.id with
            | error e =>
              rw [hsend] at hc
              simp at hc
              rw [hc]
              simp
            | ok mid =>
              rw [hsend] at hc
              simp at hc
              rw [hc]
              simp
        · have : (!g.isActive) = true := by
            simp [hact]
          rw [if_pos this] at hc
          simp at hc
    · intro ch m
      cases hg : getChannelGroup db record.groupID with
      | none => rw [hg] at hc; simp at hc
      | some g =>
        rw [hg] at hc
        dsimp only at hc
        by_cases hact : g.isActive
        · rw [hact] at hc
          rw [if_neg (by simp)] at hc
          cases htpl : getMessageTemplate db g.messageID with
          | none => rw [htpl] at hc; simp at hc
          | some tpl =>
            rw [htpl] at hc
            dsimp only at hc
            cases hsend : gw.sendMessageResult record.channelID tpl.id with
            | error e =>
              rw [hsend] at hc
              simp at hc
              rw [hc]
              simp
            | ok mid =>
              rw [hsend] at hc
              simp at hc
              rw [hc]
              simp
        · have : (!g.isActive) = true := by
            simp [hact]
          rw [if_pos this] at hc
          simp at hc
  · unfold processPushRecord
    cases hg : getChannelGroup db record.groupID with
    | none => rfl
    | some g =>
      dsimp only
      by_cases hact : g.isActive
      · rw [hact]
        rw [if_neg (by simp)]
        cases htpl : getMessageTemplate db g.messageID with
        | none => rfl
        | some tpl =>
          dsimp only
          cases hsend : gw.sendMessageResult record.channelID tpl.id with
          | error e => rfl
          | ok mid => rfl
      · have : (!g.isActive) = true := by
          simp [hact]
        rw [if_pos this]
        rfl
  · intro g hg hact
    unfold processPushRecord processRepostRecord
    rw [hg]
    dsimp only
    rw [hact]
    rfl
  · intro g tpl mid hg hact htpl hsend
    unfold processPushRecord
    rw [hg]
    dsimp only
    rw [hact]
    rw [if_neg (by simp)]
    rw [htpl]
    dsimp only
    rw [hsend]

/-- C8 witness: on the concrete store the amended characterization gives
the exact push outcome: only the send call, the record persisted as sent
with the new id, and no channel-table change. -/
theorem push_processing_characterization_witness :
    processPushRecord gwOk c8db 50 c8rec =
      ⟨updateSendRecord c8db
        { c8rec with
          messageID := "100"
          status := SendStatusSent
          sentAt := some 50
          errorMessage := none },
        [GatewayCall.sendMessage ("@c1") 7], none⟩ :=
  (push_processing_characterization gwOk c8db 50 c8rec).2.2.2 c8group c8tpl
    ("100") (by decide) rfl (by decide) rfl

/-
C10: records of unknown operation kind.
-/

/-- C10: a due record whose kind is neither repost nor push is processed
as a complete no-op (store unchanged, no gateway call, no retry
classification), and, being still in an in-flight status with an
unchanged scheduled-at, it is returned again by every later due-record
fetch. -/
theorem unknown_kind_record_is_noop_and_refetched (gw : Gateway)
    (cfg : SchedulerConfig) (db : DB) (now : Time) (record : SendRecord)
    (h1 : record.messageType ≠ SendTypeRepost)
    (h2 : record.messageType ≠ SendTypePush) :
    processRecord gw cfg db now record = (db, []) ∧
      ∀ later : Time, record ∈ db.sendRecords →
        (record.status = SendStatusPending ∨
          record.status = SendStatusRetry) →
        record.scheduledAt ≤ later →
        record ∈ getPendingSendRecords db later := by
  constructor
  · unfold processRecord
    rw [if_neg (by simp [h1]), if_neg (by simp [h2])]
  · intro later hmem hstat hsched
    unfold getPendingSendRecords
    rw [(List.perm_insertionSort _ _).mem_iff, List.mem_filter]
    refine ⟨hmem, ?_⟩
    rcases hstat with h | h <;> simp [h, hsched]

/-- Record of unknown kind for the C10 witness. -/
def c10rec : SendRecord :=
  { id := 1
    groupID := 1
    channelID := "@c1"
    messageID := ""
    messageType := "forward"
    status := SendStatusPending
    errorMessage := none
    retryCount := 0
    scheduledAt := 0
    sentAt := none }

/-- Store for the C10 witness. -/
def c10db : DB :=
  { groups := []
    channels := []
    templates := []
    sendRecords := [c10rec]
    nextRecordID := 2 }

/-- C10 witness: the concrete unknown-kind record is a no-op to process
and is fetched again by a later due query. -/
theorem unknown_kind_record_is_noop_and_refetched_witness :
    processRecord gwOk cfg3 c10db 5 c10rec = (c10db, []) ∧
      c10rec ∈ getPendingSendRecords c10db 60 := by
  have h := unknown_kind_record_is_noop_and_refetched gwOk cfg3 c10db 5
    c10rec (by decide) (by decide)
  exact ⟨h.1, h.2 60 (by decide) (Or.inl rfl) (by decide)⟩

/-
C2: the retry state machine under repeated delivery failure.
-/

/-- Group for the C2 run: active, frequency mode. -/
def c2group : ChannelGroup :=
  { id := 1
    name := "g"
    messageID := 7
    frequency := 60
    scheduleMode := ScheduleModeFrequency
    scheduleTimepoints := []
    isActive := true
    autoPin := false }

/-- Template for the C2 run. -/
def c2tpl : MessageTemplate :=
  { id := 7
    title := "t"
    content := "hello"
    entities := "" }

/-- Channel for the C2 run, with no previous message. -/
def c2chan : Channel :=
  { id := 1
    channelID := "@c1"
    channelName := "c1"
    groupID := 1
    lastMessageID := ""
    isActive := true }

/-- The C2 record: pending repost, retry count 0, scheduled at 0. -/
def c2rec : SendRecord :=
  { id := 1
    groupID := 1
    channelID := "@c1"
    messageID := ""
    messageType := SendTypeRepost
    status := SendStatusPending
    errorMessage := none
    retryCount := 0
    scheduledAt := 0
    sentAt := none }

/-- Store for the C2 run. -/
def c2db : DB :=
  { groups := [c2group]
    channels := [c2chan]
    templates := [c2tpl]
    sendRecords := [c2rec]
    nextRecordID := 2 }

/-- C2: with retry_attempts = 3 and retry_interval = 300 s, three
consecutive delivery failures (at times 100, 200, 300) drive the record
through retry with retry_count 1, retry with retry_count 2, then failed
with retry_count 3, each persisting the error text; the failed record is
no longer returned by the due-record query, so a fourth attempt never
occurs. However the PERSISTED scheduled_at stays 0 throughout: the
UPDATE statement of UpdateSendRecord does not cover scheduled_at, so the
now-plus-retry-interval backoff computed by handleSendError (100 + 300,
then 200 + 300) is never stored and the retried record is due again
immediately, contradicting the claimed scheduled-at update. -/
theorem retry_state_machine_run :
    dispatchFirstDue gwFail cfg3 c2db 100 =
        { c2db with sendRecords := [{ c2rec with
            status := SendStatusRetry
            retryCount := 1
            errorMessage := some ("network error") }] } ∧
      dispatchFirstDue gwFail cfg3
          (dispatchFirstDue gwFail cfg3 c2db 100) 200 =
        { c2db with sendRecords := [{ c2rec with
            status := SendStatusRetry
            retryCount := 2
            errorMessage := some ("network error") }] } ∧
      dispatchFirstDue gwFail cfg3 (dispatchFirstDue gwFail cfg3
          (dispatchFirstDue gwFail cfg3 c2db 100) 200) 300 =
        { c2db with sendRecords := [{ c2rec with
            status := SendStatusFailed
            retryCount := 3
            errorMessage := some ("network error") }] } ∧
      getPendingSendRecords (dispatchFirstDue gwFail cfg3
          (dispatchFirstDue gwFail cfg3
            (dispatchFirstDue gwFail cfg3 c2db 100) 200) 300) 400 = [] ∧
      dispatchFirstDue gwFail cfg3 (dispatchFirstDue gwFail cfg3
          (dispatchFirstDue gwFail cfg3
            (dispatchFirstDue gwFail cfg3 c2db 100) 200) 300) 400 =
        dispatchFirstDue gwFail cfg3 (dispatchFirstDue gwFail cfg3
          (dispatchFirstDue gwFail cfg3 c2db 100) 200) 300 := by
  refine ⟨by decide, by decide, by decide, by decide, by decide⟩

/-
C9: the startup sweep and send-record deletion.
-/

/-- Every send-record row of the first store keeps a row with its id in
the second store: no row was deleted (contents may have been updated). -/
def sendRecordIdsPreserved (db db2 : DB) : Prop :=
  ∀ r ∈ db.sendRecords, ∃ r2, r2 ∈ db2.sendRecords ∧ r2.id = r.id

lemma idsPreserved_refl (db : DB) : sendRecordIdsPreserved db db :=
  fun r hr => ⟨r, hr, rfl⟩

lemma idsPreserved_trans {db1 db2 db3 : DB}
    (h12 : sendRecordIdsPreserved db1 db2)
    (h23 : sendRecordIdsPreserved db2 db3) :
    sendRecordIdsPreserved db1 db3 := by
  intro r hr
  obtain ⟨r2, hr2, hid2⟩ := h12 r hr
  obtain ⟨r3, hr3, hid3⟩ := h23 r2 hr2
  exact ⟨r3, hr3, hid3.trans hid2⟩

lemma idsPreserved_updateSendRecord (db : DB) (rec : SendRecord) :
    sendRecordIdsPreserved db (updateSendRecord db rec) := by
  intro r hr
  refine ⟨_, List.mem_map_of_mem _ hr, ?_⟩
  dsimp only
  split <;> rfl

lemma idsPreserved_createSendRecord (db : DB) (rec : SendRecord) :
    sendRecordIdsPreserved db (createSendRecord db rec) := by
  intro r hr
  exact ⟨r, List.mem_append_left _ hr, rfl⟩

lemma idsPreserved_updateChannelLastMessageID (db : DB)
    (channelID messageID : String) :
    sendRecordIdsPreserved db
      (updateChannelLastMessageID db channelID messageID) :=
  fun r hr => ⟨r, hr, rfl⟩

lemma idsPreserved_createRepostTaskChannel (db : DB) (now : Time)
    (groupID : Int) (channel : Channel) :
    sendRecordIdsPreserved db
      (createRepostTaskChannel db now groupID channel) := by
  unfold createRepostTaskChannel
  split
  · exact idsPreserved_refl db
  · split
    · exact idsPreserved_refl db
    · exact idsPreserved_createSendRecord db _

lemma idsPreserved_createRepostTasks (db : DB) (now : Time) :
    sendRecordIdsPreserved db (createRepostTasks db now) := by
  unfold createRepostTasks
  refine preservedByFoldl (sendRecordIdsPreserved db) _ ?_ _ db
    (idsPreserved_refl db)
  intro b a hb
  split
  · exact hb
  · split
    · refine idsPreserved_trans hb ?_
      unfold createRepostTask
      refine preservedByFoldl (sendRecordIdsPreserved b) _ ?_ _ b
        (idsPreserved_refl b)
      intro b2 a2 hb2
      exact idsPreserved_trans hb2
        (idsPreserved_createRepostTaskChannel b2 now a.id a2)
    · exact hb

lemma idsPreserved_processRepostRecord (gw : Gateway) (db : DB)
    (now : Time) (record : SendRecord) :
    sendRecordIdsPreserved db (processRepostRecord gw db now record).db := by
  unfold processRepostRecord
  split
  · exact idsPreserved_refl db
  · split
    · exact idsPreserved_updateSendRecord db _
    · split
      · exact idsPreserved_refl db
      · rename_i group hactive template htpl
        split
        · exact idsPreserved_updateSendRecord db _
        · rename_i targetChannel htc
          dsimp only
          cases gw.sendWithTplResult targetChannel.channelID template.id with
          | error e => exact idsPreserved_refl db
          | ok mid =>
            exact idsPreserved_trans
              (idsPreserved_updateChannelLastMessageID db _ _)
              (idsPreserved_updateSendRecord _ _)

lemma idsPreserved_processPushRecord (gw : Gateway) (db : DB)
    (now : Time) (record : SendRecord) :
    sendRecordIdsPreserved db (processPushRecord gw db now record).db := by
  unfold processPushRecord
  split
  · exact idsPreserved_refl db
  · split
    · exact idsPreserved_updateSendRecord db _
    · split
      · exact idsPreserved_refl db
      · split
        · exact idsPreserved_refl db
        · exact idsPreserved_updateSendRecord db _

lemma idsPreserved_handleSendError (cfg : SchedulerConfig) (db : DB)
    (now : Time) (record : SendRecord) (errText : String) :
    sendRecordIdsPreserved db
      (handleSendError cfg db now record errText) := by
  unfold handleSendError
  exact idsPreserved_updateSendRecord db _

lemma idsPreserved_processRecord (gw : Gateway) (cfg : SchedulerConfig)
    (db : DB) (now : Time) (record : SendRecord) :
    sendRecordIdsPreserved db (processRecord gw cfg db now record).1 := by
  unfold processRecord
  split
  · dsimp only
    cases (processRepostRecord gw db now record).err with
    | some e =>
      exact idsPreserved_trans
        (idsPreserved_processRepostRecord gw db now record)
        (idsPreserved_handleSendError cfg _ now record _)
    | none => exact idsPreserved_processRepostRecord gw db now record
  · split
    · dsimp only
      cases (processPushRecord gw db now record).err with
      | some e =>
        exact idsPreserved_trans
          (idsPreserved_processPushRecord gw db now record)
          (idsPreserved_handleSendError cfg _ now record _)
      | none => exact idsPreserved_processPushRecord gw db now record
    · exact idsPreserved_refl db

/-- C9: the startup sweep deletes only rows whose status is pending (in
fact only pending repost rows); every row with another status — sent,
failed or retry — survives the sweep; and neither a materializer tick nor
the processing of a record ever deletes a send-record row (their row ids
are all preserved). -/
theorem cleanup_deletes_only_pending_rows (db : DB) (gw : Gateway)
    (cfg : SchedulerConfig) (now : Time) (rec : SendRecord) :
    (∀ r ∈ db.sendRecords,
        r ∉ (cleanupDuplicatePendingRecords db).sendRecords →
          r.status = SendStatusPending ∧ r.messageType = SendTypeRepost) ∧
      (∀ r ∈ db.sendRecords, r.status ≠ SendStatusPending →
        r ∈ (cleanupDuplicatePendingRecords db).sendRecords) ∧
      sendRecordIdsPreserved db (createRepostTasks db now) ∧
      sendRecordIdsPreserved db (processRecord gw cfg db now rec).1 := by
  refine ⟨?_, ?_, idsPreserved_createRepostTasks db now,
    idsPreserved_processRecord gw cfg db now rec⟩
  · intro r hr hnot
    unfold cleanupDuplicatePendingRecords at hnot
    rw [List.mem_filter] at hnot
    push_neg at hnot
    have hcond := hnot hr
    simp only [Bool.not_eq_true', Bool.not_eq_false] at hcond
    simpa [beq_iff_eq] using hcond
  · intro r hr hstat
    unfold cleanupDuplicatePendingRecords
    rw [List.mem_filter]
    refine ⟨hr, ?_⟩
    simp [beq_iff_eq, hstat]

/-- Sent record for the C9 witness. -/
def c9sent : SendRecord :=
  { id := 2
    groupID := 1
    channelID := "@c1"
    messageID := "55"
    messageType := SendTypeRepost
    status := SendStatusSent
    errorMessage := none
    retryCount := 0
    scheduledAt := 0
    sentAt := some 10 }

/-- Retry record for the C9 witness. -/
def c9retry : SendRecord :=
  { id := 3
    groupID := 1
    channelID := "@c1"
    messageID := ""
    messageType := SendTypeRepost
    status := SendStatusRetry
    errorMessage := some ("network error")
    retryCount := 1
    scheduledAt := 20
    sentAt := none }

/-- Store for the C9 witness: one pending repost row, one sent row, one
retry row. -/
def c9db : DB :=
  { groups := []
    channels := []
    templates := []
    sendRecords := [newRepostRecord 1 ("@c1") 0, c9sent, c9retry]
    nextRecordID := 4 }

/-- C9 witness: the sent and retry rows survive the sweep. -/
theorem cleanup_deletes_only_pending_rows_witness :
    c9sent ∈ (cleanupDuplicatePendingRecords c9db).sendRecords ∧
      c9retry ∈ (cleanupDuplicatePendingRecords c9db).sendRecords := by
  have h := cleanup_deletes_only_pending_rows c9db gwOk cfg3 0 c9sent
  exact ⟨h.2.1 c9sent (by decide) (by decide),
    h.2.1 c9retry (by decide) (by decide)⟩

end RepostBot
